import Mathlib

/-!
Verification of the SanSure AI backend (files `backend/groq_service.py`,
`backend/main.py`, `backend/models.py`) against its natural-language
specification.

The Python code is shallowly embedded: every pure computation (prompt
rendering, code-fence stripping, JSON parsing, truthiness tests) becomes an
executable Lean function; the single outbound LLM call of each operation is
modelled by passing the (optional) response text in as an argument and
recording in an `OpTrace` how many network calls the operation performed
before returning.  Python exceptions become an explicit `Except` result.
-/

/-- JSON values as produced by Python `json.loads`.  Numbers keep their
source lexeme (e.g. `"1"`, `"0.5e3"`, `"NaN"`): no claim compares numeric
values across distinct lexemes, and this avoids floating-point semantics.
Objects are insertion-ordered key/value lists built with Python `dict`
semantics (first occurrence keeps its position, last duplicate wins). -/
inductive JsonValue where
  | null
  | bool (b : Bool)
  | num (lexeme : String)
  | str (s : String)
  | arr (elems : List JsonValue)
  | obj (members : List (String × JsonValue))

/-- JSON insignificant whitespace, as in Python's `json` decoder
(`_w = re.compile(r"[ \t\n\r]*")`). -/
def jsonWs (c : Char) : Bool :=
  c = ' ' || c = '\t' || c = '\n' || c = '\r'

/-- Skip JSON whitespace. -/
def skipWs (l : List Char) : List Char := l.dropWhile jsonWs

def isDigitChar (c : Char) : Bool := '0' ≤ c && c ≤ '9'

/-- Value of one hex digit of a `\uXXXX` escape, if any. -/
def hexVal? (c : Char) : Option Nat :=
  if '0' ≤ c ∧ c ≤ '9' then some (c.toNat - 48)
  else if 'a' ≤ c ∧ c ≤ 'f' then some (c.toNat - 87)
  else if 'A' ≤ c ∧ c ≤ 'F' then some (c.toNat - 55)
  else none

def hex4? (a b c d : Char) : Option Nat :=
  match hexVal? a, hexVal? b, hexVal? c, hexVal? d with
  | some x, some y, some z, some w => some (((x * 16 + y) * 16 + z) * 16 + w)
  | _, _, _, _ => none

/-- Body of a JSON string literal, after the opening quote, in strict mode
(Python `json.decoder.py_scanstring` with `strict=True`): unescaped control
characters below `0x20` are rejected; `\uXXXX` escapes combine surrogate
pairs.  (A lone surrogate, which Python keeps as a surrogate code point, is
mapped to `Char.ofNat`'s fallback since Lean `Char` has no surrogates; no
claim exercises that corner.)  Returns the decoded characters and the
input remaining after the closing quote. -/
def parseJString : Nat → List Char → Option (List Char × List Char)
  | 0, _ => none
  | _ + 1, [] => none
  | _ + 1, '"' :: rest => some ([], rest)
  | fuel + 1, '\\' :: esc =>
    match esc with
    | '"' :: r => (parseJString fuel r).map (fun p => ('"' :: p.1, p.2))
    | '\\' :: r => (parseJString fuel r).map (fun p => ('\\' :: p.1, p.2))
    | '/' :: r => (parseJString fuel r).map (fun p => ('/' :: p.1, p.2))
    | 'b' :: r => (parseJString fuel r).map (fun p => ('\x08' :: p.1, p.2))
    | 'f' :: r => (parseJString fuel r).map (fun p => ('\x0c' :: p.1, p.2))
    | 'n' :: r => (parseJString fuel r).map (fun p => ('\n' :: p.1, p.2))
    | 'r' :: r => (parseJString fuel r).map (fun p => ('\r' :: p.1, p.2))
    | 't' :: r => (parseJString fuel r).map (fun p => ('\t' :: p.1, p.2))
    | 'u' :: a :: b :: c :: d :: '\\' :: 'u' :: e :: f :: g :: h :: r2 =>
      match hex4? a b c d with
      | none => none
      | some n =>
        if 0xD800 ≤ n ∧ n ≤ 0xDBFF then
          match hex4? e f g h with
          | none => none
          | some m =>
            if 0xDC00 ≤ m ∧ m ≤ 0xDFFF then
              (parseJString fuel r2).map (fun p =>
                (Char.ofNat (0x10000 + (n - 0xD800) * 0x400 + (m - 0xDC00)) :: p.1, p.2))
            else
              (parseJString fuel ('\\' :: 'u' :: e :: f :: g :: h :: r2)).map
                (fun p => (Char.ofNat n :: p.1, p.2))
        else
          (parseJString fuel ('\\' :: 'u' :: e :: f :: g :: h :: r2)).map
            (fun p => (Char.ofNat n :: p.1, p.2))
    | 'u' :: a :: b :: c :: d :: r =>
      match hex4? a b c d with
      | none => none
      | some n => (parseJString fuel r).map (fun p => (Char.ofNat n :: p.1, p.2))
    | _ => none
  | fuel + 1, c :: rest =>
    if c.toNat < 0x20 then none
    else (parseJString fuel rest).map (fun p => (c :: p.1, p.2))

/-- JSON number, per Python's `json.scanner.NUMBER_RE`
`(-?(?:0|[1-9]\d*))(\.\d+)?([eE][-+]?\d+)?`: the longest match is taken and
any following character is left for the caller (which then fails unless it
is a legal delimiter). -/
def parseNumber (s : List Char) : Option (JsonValue × List Char) :=
  let negPart : List Char × List Char :=
    match s with
    | '-' :: r => (['-'], r)
    | _ => ([], s)
  let intPart : Option (List Char × List Char) :=
    match negPart.2 with
    | '0' :: r => some (['0'], r)
    | c :: r =>
      if isDigitChar c then
        some (c :: r.takeWhile isDigitChar, r.dropWhile isDigitChar)
      else none
    | [] => none
  match intPart with
  | none => none
  | some (ip, s1) =>
    let fracPart : List Char × List Char :=
      match s1 with
      | '.' :: r =>
        match r.takeWhile isDigitChar with
        | [] => ([], s1)
        | ds => ('.' :: ds, r.dropWhile isDigitChar)
      | _ => ([], s1)
    let s2 := fracPart.2
    let expPart : List Char × List Char :=
      match s2 with
      | e :: r =>
        if e = 'e' ∨ e = 'E' then
          let signed : List Char × List Char :=
            match r with
            | '+' :: r2 => (['+'], r2)
            | '-' :: r2 => (['-'], r2)
            | _ => ([], r)
          match signed.2.takeWhile isDigitChar with
          | [] => ([], s2)
          | ds => (e :: (signed.1 ++ ds), signed.2.dropWhile isDigitChar)
        else ([], s2)
      | [] => ([], [])
    some (.num ⟨negPart.1 ++ ip ++ fracPart.1 ++ expPart.1⟩, expPart.2)

/-- Python `dict` insertion: a repeated key keeps its original position but
takes the new value; a new key is appended. -/
def dictInsert (acc : List (String × JsonValue)) (k : String) (v : JsonValue) :
    List (String × JsonValue) :=
  match acc with
  | [] => [(k, v)]
  | (k', v') :: rest =>
    if k' = k then (k', v) :: rest else (k', v') :: dictInsert rest k v

mutual

/-- One JSON value, per Python's pure-python scanner `py_make_scanner`:
object, array, string, `true`/`false`/`null`, the constants
`NaN`/`Infinity`/`-Infinity`, or a number.  The fuel argument dominates the
recursion; `jsonParse` supplies enough for any input. -/
def parseValue : Nat → List Char → Option (JsonValue × List Char)
  | 0, _ => none
  | fuel + 1, s =>
    match s with
    | '\x7b' :: rest =>
      (match skipWs rest with
       | '\x7d' :: r => some (.obj [], r)
       | s2 => parseMembers fuel s2 [])
    | '[' :: rest =>
      (match skipWs rest with
       | ']' :: r => some (.arr [], r)
       | s2 => parseElems fuel s2 [])
    | '"' :: rest =>
      (parseJString (rest.length + 1) rest).map (fun p => (.str ⟨p.1⟩, p.2))
    | 't' :: 'r' :: 'u' :: 'e' :: rest => some (.bool true, rest)
    | 'f' :: 'a' :: 'l' :: 's' :: 'e' :: rest => some (.bool false, rest)
    | 'n' :: 'u' :: 'l' :: 'l' :: rest => some (.null, rest)
    | 'N' :: 'a' :: 'N' :: rest => some (.num "NaN", rest)
    | 'I' :: 'n' :: 'f' :: 'i' :: 'n' :: 'i' :: 't' :: 'y' :: rest =>
      some (.num "Infinity", rest)
    | '-' :: 'I' :: 'n' :: 'f' :: 'i' :: 'n' :: 'i' :: 't' :: 'y' :: rest =>
      some (.num "-Infinity", rest)
    | _ => parseNumber s

/-- Members of a JSON object after `{` (and after the empty-object check):
`"key" ws : ws value ws (, ws ...| })`, per Python `JSONObject`. -/
def parseMembers : Nat → List Char → List (String × JsonValue) →
    Option (JsonValue × List Char)
  | 0, _, _ => none
  | fuel + 1, s, acc =>
    match s with
    | '"' :: r =>
      (match parseJString (r.length + 1) r with
       | none => none
       | some (key, r2) =>
         match skipWs r2 with
         | ':' :: r3 =>
           (match parseValue fuel (skipWs r3) with
            | none => none
            | some (v, r4) =>
              let acc2 := dictInsert acc ⟨key⟩ v
              match skipWs r4 with
              | ',' :: r5 => parseMembers fuel (skipWs r5) acc2
              | '\x7d' :: r5 => some (.obj acc2, r5)
              | _ => none)
         | _ => none)
    | _ => none

/-- Elements of a JSON array after `[` (and after the empty-array check),
per Python `JSONArray`. -/
def parseElems : Nat → List Char → List JsonValue →
    Option (JsonValue × List Char)
  | 0, _, _ => none
  | fuel + 1, s, acc =>
    match parseValue fuel s with
    | none => none
    | some (v, r) =>
      match skipWs r with
      | ',' :: r2 => parseElems fuel (skipWs r2) (acc ++ [v])
      | ']' :: r2 => some (.arr (acc ++ [v]), r2)
      | _ => none

end

/-- Python `json.loads` on a string: skip leading whitespace, scan one
value, skip trailing whitespace, and reject any extra data.  `none` models
a raised `json.JSONDecodeError`. -/
def jsonParse (s : String) : Option JsonValue :=
  let l := skipWs s.data
  match parseValue (2 * l.length + 2) l with
  | some (v, rest) => if skipWs rest = [] then some v else none
  | none => none

/-- One left-to-right pass of `re.sub(r"```json\n?|```", "", text)` from
`safe_json_parse`: at each position the regex engine first tries the
alternative ```` ```json ```` with an optional greedy newline, then the
alternative ```` ``` ````; on a match it drops the matched characters and
resumes after them, otherwise it keeps the character and advances. -/
def subFences : List Char → List Char
  | [] => []
  | '\x60' :: '\x60' :: '\x60' :: 'j' :: 's' :: 'o' :: 'n' :: '\n' :: r => subFences r
  | '\x60' :: '\x60' :: '\x60' :: 'j' :: 's' :: 'o' :: 'n' :: r => subFences r
  | '\x60' :: '\x60' :: '\x60' :: r => subFences r
  | c :: rest => c :: subFences rest

/-- Python `str.isspace` characters in the ASCII range, the set stripped by
`str.strip()` on the texts this backend handles. -/
def isPySpace (c : Char) : Bool :=
  c = ' ' || c = '\t' || c = '\n' || c = '\r' || c = '\x0b' || c = '\x0c'

/-- Remove trailing Python whitespace. -/
def stripRightList (l : List Char) : List Char :=
  (l.reverse.dropWhile isPySpace).reverse

/-- Python `str.strip()` on a character list. -/
def pyStripList (l : List Char) : List Char :=
  (stripRightList l).dropWhile isPySpace

/-- The `cleaned` text of `safe_json_parse`:
`re.sub(r"```json\n?|```", "", text).strip()`. -/
def cleanText (t : String) : String :=
  ⟨pyStripList (subFences t.data)⟩

/-- Function `safe_json_parse(text)` from `groq_service.py`.  The argument is
`str | None`; the Python function returns the value `json.loads` produced,
or the in-band value `None` when the text is falsy or `json.loads` raised
`JSONDecodeError`.  Python `None` and JSON `null` are the same object, so
the result type is a plain `JsonValue` with `JsonValue.null` standing for
`None`. -/
def safe_json_parse (text : Option String) : JsonValue :=
  match text with
  | none => .null
  | some t =>
    if t = "" then .null
    else
      match jsonParse (cleanText t) with
      | some v => v
      | none => .null

/-- Zero test for a number lexeme: Python `bool(x)` is `False` for every
numeric zero (`0`, `-0`, `0.0`, `0e12`, ...), i.e. when every digit of the
mantissa (the part before any exponent) is `0`. -/
def numIsZero (lex : String) : Bool :=
  let m := lex.data.takeWhile (fun c => c != 'e' && c != 'E')
  m.any (fun c => isDigitChar c) && m.all (fun c => c == '-' || c == '0' || c == '.')

/-- Python truthiness of a `json.loads` result: `None`, `False`, numeric
zero, `""`, `[]` and `{}` are falsy. -/
def pyTruthy : JsonValue → Bool
  | .null => false
  | .bool b => b
  | .num lex => !(numIsZero lex)
  | .str s => s != ""
  | .arr l => !l.isEmpty
  | .obj l => !l.isEmpty

/-- Request model `models.ChecklistModel`. -/
structure ChecklistModel where
  door : Bool
  water : Bool
  clean : Bool
  toilet : Bool
deriving DecidableEq

/-- Request model `models.VisionRequest`. -/
structure VisionRequest where
  base64_image : String
  checklist : ChecklistModel
deriving DecidableEq

/-- Request model `models.SubmissionModel`. -/
structure SubmissionModel where
  id : String
  facilityId : String
  submitterType : String
  score : Int
  checklist : ChecklistModel
  features : List String
  discrepancies : List String
deriving DecidableEq

/-- Request model `models.CollusionRequest`: the `submissions` list carries no length
bound, so any number of submissions is accepted by validation. -/
structure CollusionRequest where
  submissions : List SubmissionModel
deriving DecidableEq

/-- Request model `models.HealthNarrativeRequest`.  Field `avg_score` is a required field of
the request even though no prompt uses it. -/
structure HealthNarrativeRequest where
  village_name : String
  population : Int
  avg_score : Float
  cases_prevented : Int

/-- Request model `models.InvestorSignalRequest`. -/
structure InvestorSignalRequest where
  village_name : String
  history : List Float
  avg : Float
  std_dev : Float

/-- Constant `VISION_MODEL` from `groq_service.py`. -/
def VISION_MODEL : String := "meta-llama/llama-4-scout-17b-16e-instruct"

/-- Constant `TEXT_MODEL` from `groq_service.py`. -/
def TEXT_MODEL : String := "meta-llama/llama-4-scout-17b-16e-instruct"

/-- Constant `SANSURE_SYSTEM_INSTRUCTION` from `groq_service.py` (a triple-quoted
string, hence the leading and trailing newline). -/
def SANSURE_SYSTEM_INSTRUCTION : String :=
  "\nYou are SanSure\x27s core AI engine — an intelligence layer powering a rural sanitation\n"
  ++ "trust-rating platform aligned with SDG 6.2. You operate across four distinct modes\n"
  ++ "depending on the task passed to you. Always detect which mode applies from the request\n"
  ++ "structure and respond accordingly.\n"
  ++ "\nMODE 1 — VISION HYGIENE SCORER\n"
  ++ "Triggered when a toilet facility image is provided alongside a 4-item checklist.\n"
  ++ "Respond ONLY in this JSON:\n"
  ++ "\x7b\"hygiene_score\": 0-100, \"confidence\": \"high|medium|low\", \"visual_verification\":\n"
  ++ "\x7b\"door\": \"confirmed|contradicted|unclear\", \"water\": \"confirmed|contradicted|unclear\",\n"
  ++ "\"clean\": \"confirmed|contradicted|unclear\", \"toilet\": \"confirmed|contradicted|unclear\"\x7d,\n"
  ++ "\"detected_features\": [], \"discrepancies\": [], \"recommendation\": \"\",\n"
  ++ "\"spoofing_risk\": \"low|medium|high\", \"spoofing_reasoning\": \"\"\x7d\n"
  ++ "\nMODE 2 — COLLUSION ADJUDICATOR\n"
  ++ "Triggered when three independent submission summaries are provided for the same facility.\n"
  ++ "Respond ONLY in this JSON:\n"
  ++ "\x7b\"consensus_score\": 0-100, \"score_variance\": 0-100, \"collusion_risk\": \"low|medium|high\",\n"
  ++ "\"collusion_indicators\": [], \"independence_confirmed\": true|false, \"reasoning\": \"\",\n"
  ++ "\"recommendation\": \"mint_token|hold_pending_review|reject_flag_escalate\",\n"
  ++ "\"confidence\": \"high|medium|low\"\x7d\n"
  ++ "\nMODE 3 — HEALTH MIRROR NARRATOR\n"
  ++ "Triggered when village demographics and cases_prevented are provided.\n"
  ++ "Respond with ONE warm plain-language paragraph only — no JSON, no headers.\n"
  ++ "Tone: a respected elder at a village meeting. Never use: data, score, metric, percentage, coefficient.\n"
  ++ "\nMODE 4 — INVESTOR SIGNAL GENERATOR\n"
  ++ "Triggered when a 90-day score history array is provided.\n"
  ++ "Respond ONLY in this JSON:\n"
  ++ "\x7b\"credit_price_inr\": 80-500, \"volatility_index\": 0-100,\n"
  ++ "\"risk_rating\": \"AAA|AA|A|BBB|BB|B|CCC|D\",\n"
  ++ "\"trend\": \"strongly_improving|improving|stable|declining|strongly_declining\",\n"
  ++ "\"investment_signal\": \"max 15 words\", \"disbursement_ready\": true|false,\n"
  ++ "\"30_day_forecast\": \"improving|stable|at_risk\"\x7d\n"
  ++ "\nGLOBAL RULES: Never wrap JSON in markdown fences. Never fabricate visual features.\n"
  ++ "Collusion false negatives are more damaging than false positives — be ruthlessly honest.\n"
  ++ "CLEANLINESS RULE: Judge cleanliness based on the toilet bowl, seat, and surrounding surfaces — not the floor. Floor tile colour, grout lines, or patterns are irrelevant to the cleanliness score. Only visible waste, faeces, heavy staining on the toilet itself, or clear evidence of neglect should lower the score.\n"

/-- Function `get_client()`: reads `GROQ_API_KEY` (modelled as the optional
environment value) and raises
`ValueError("GROQ_API_KEY not set in backend/.env")` when the variable is
unset, empty (Python falsy) or equal to the placeholder; otherwise it
builds a client, modelled by the key itself.  The error value is the
`ValueError` message. -/
def get_client (apiKey : Option String) : Except String String :=
  match apiKey with
  | none => .error "GROQ_API_KEY not set in backend/.env"
  | some k =>
    if k = "" ∨ k = "PLACEHOLDER_API_KEY" then
      .error "GROQ_API_KEY not set in backend/.env"
    else .ok k

/-- Python exceptions that the modelled code can raise:
the dedicated `ValueError` of the parse-failure paths and configuration
checks, and the `TypeError` that slicing `None` would raise. -/
inductive PyError where
  | valueError (msg : String)
  | typeError (msg : String)
deriving DecidableEq

/-- Result of running one service operation: how many outbound LLM calls
were made before it returned, and its outcome (`Except.error` models an
escaping Python exception). -/
structure OpTrace (α : Type) where
  networkCalls : Nat
  outcome : Except PyError α

/-- Python slice `t[:n]`. -/
def pySlice (t : String) (n : Nat) : String := ⟨t.data.take n⟩

/-- The response handling shared by the three structured modes:
`result = safe_json_parse(text)`, `if result: return result`, else
`raise ValueError(f"<msgHead>{text[:300]}")`.  When `text` is `None`, the
f-string slice `text[:300]` itself raises `TypeError` before the
`ValueError` is built. -/
def structuredResponse (msgHead : String) (text : Option String) :
    Except PyError JsonValue :=
  let result := safe_json_parse text
  if pyTruthy result then .ok result
  else
    match text with
    | some t => .error (.valueError (msgHead ++ pySlice t 300))
    | none => .error (.typeError "NoneType object is not subscriptable")

def visionParseMsg : String := "Could not parse vision response: "

def collusionParseMsg : String := "Could not parse collusion response: "

def investorParseMsg : String := "Could not parse investor signal response: "

/-- Python `str()` of a bool, as interpolated by f-strings. -/
def pyBoolStr (b : Bool) : String := if b then "True" else "False"

/-- The vision prompt of `run_vision_analysis` (an f-string over the
checklist booleans). -/
def visionPrompt (req : VisionRequest) : String :=
  let cl := req.checklist
  "You are SanSure\x27s hygiene scoring engine. Analyze this toilet facility photo across four dimensions:\n\n"
  ++ "1. STRUCTURAL INTEGRITY (door present, walls intact, roof functional)\n"
  ++ "2. WATER AVAILABILITY (water source visible, container present)\n"
  ++ "3. CLEANLINESS (focus on the toilet bowl, seat, and immediate surfaces — is there visible waste, heavy staining, or clear evidence of neglect? Floor appearance is irrelevant to this score)\n"
  ++ "4. TOILET VISIBILITY (is the toilet unit itself clearly visible and present in the image?)\n\n"
  ++ "User provided checklist:\n"
  ++ "- Door present: " ++ pyBoolStr cl.door ++ "\n"
  ++ "- Water available: " ++ pyBoolStr cl.water ++ "\n"
  ++ "- Clean floor: " ++ pyBoolStr cl.clean ++ "\n"
  ++ "- Toilet clearly visible: " ++ pyBoolStr cl.toilet ++ "\n\n"
  ++ "Return ONLY valid JSON (no markdown fences):\n"
  ++ "\x7b\n  \"hygiene_score\": 0-100,\n  \"confidence\": \"high|medium|low\",\n"
  ++ "  \"visual_verification\": \x7b\n    \"door\": \"confirmed|contradicted|unclear\",\n"
  ++ "    \"water\": \"confirmed|contradicted|unclear\",\n    \"clean\": \"confirmed|contradicted|unclear\",\n"
  ++ "    \"toilet\": \"confirmed|contradicted|unclear\"\n  \x7d,\n"
  ++ "  \"detected_features\": [\"feature1\"],\n  \"discrepancies\": [\"discrepancy if any\"],\n"
  ++ "  \"recommendation\": \"brief assessment\",\n  \"spoofing_risk\": \"low|medium|high\",\n"
  ++ "  \"spoofing_reasoning\": \"reasoning\"\n\x7d"

/-- Operation `run_vision_analysis`: builds the prompt, obtains the client (raising
the configuration `ValueError` before any network call when the credential
is missing), performs exactly one chat-completion call whose response text
is the `content` argument, and parses it with the shared handling. -/
def run_vision_analysis (apiKey : Option String) (req : VisionRequest)
    (content : Option String) : OpTrace JsonValue :=
  let _prompt := visionPrompt req
  match get_client apiKey with
  | .error msg => ⟨0, .error (.valueError msg)⟩
  | .ok _ => ⟨1, structuredResponse visionParseMsg content⟩

/-- Lowercase hex digit, as in Python `\xhh` escapes. -/
def hexDigitChar (n : Nat) : Char :=
  if n < 10 then Char.ofNat (48 + n) else Char.ofNat (87 + n)

/-- Escaping of one character inside Python `repr` of a `str`, for the
printable-Unicode strings this backend handles: backslash, the chosen
quote, `\n`/`\r`/`\t`, and `\xhh` for the remaining ASCII control
characters. -/
def pyReprEscapeChar (quote : Char) (c : Char) : List Char :=
  if c = '\\' then ['\\', '\\']
  else if c = quote then ['\\', quote]
  else if c = '\n' then ['\\', 'n']
  else if c = '\r' then ['\\', 'r']
  else if c = '\t' then ['\\', 't']
  else if c.toNat < 32 ∨ c.toNat = 127 then
    ['\\', 'x', hexDigitChar (c.toNat / 16), hexDigitChar (c.toNat % 16)]
  else [c]

/-- Python `repr` of a `str`: single quotes, unless the string contains a
single quote and no double quote. -/
def pyStrRepr (s : String) : String :=
  let quote : Char :=
    if s.data.contains '\x27' && !(s.data.contains '"') then '"' else '\x27'
  ⟨quote :: (s.data.map (pyReprEscapeChar quote)).flatten ++ [quote]⟩

/-- Python `str` of a list of strings, as interpolated by an f-string:
`repr` of each element, comma-separated, in brackets. -/
def pyListStrRepr (l : List String) : String :=
  "[" ++ String.intercalate ", " (l.map pyStrRepr) ++ "]"

/-- Python `str` of `checklist.model_dump()`: the `repr` of a four-key
`dict` of booleans in field order. -/
def checklistDictRepr (c : ChecklistModel) : String :=
  "\x7b\x27door\x27: " ++ pyBoolStr c.door
  ++ ", \x27water\x27: " ++ pyBoolStr c.water
  ++ ", \x27clean\x27: " ++ pyBoolStr c.clean
  ++ ", \x27toilet\x27: " ++ pyBoolStr c.toilet ++ "\x7d"

/-- The local `fmt(s)` helper of `run_collusion_check`. -/
def fmtSubmission (s : SubmissionModel) : String :=
  "Score: " ++ toString s.score
  ++ "\nChecklist: " ++ checklistDictRepr s.checklist
  ++ "\nFeatures: " ++ pyListStrRepr s.features

/-- Expression `facility_id = subs[0].facilityId if subs else "UNKNOWN"`. -/
def collusionFacilityId (subs : List SubmissionModel) : String :=
  match subs with
  | [] => "UNKNOWN"
  | s :: _ => s.facilityId

/-- Slot `i` of the collusion prompt:
`fmt(subs[i]) if len(subs) > i else 'N/A'`. -/
def collusionSlot (subs : List SubmissionModel) (i : Nat) : String :=
  if h : i < subs.length then fmtSubmission (subs.get ⟨i, h⟩) else "N/A"

/-- The collusion prompt of `run_collusion_check` (an f-string; the literal
segments between interpolations are kept verbatim). -/
def collusionPrompt (req : CollusionRequest) : String :=
  let subs := req.submissions
  "You are SanSure\x27s collusion detection engine. Three independent parties submitted assessments for facility "
  ++ collusionFacilityId subs
  ++ ":\n\n"
  ++ "HOUSEHOLD SUBMISSION:\n"
  ++ collusionSlot subs 0
  ++ "\n\n"
  ++ "PEER SUBMISSION (non-adjacent):\n"
  ++ collusionSlot subs 1
  ++ "\n\n"
  ++ "AUDITOR SUBMISSION (separate ward):\n"
  ++ collusionSlot subs 2
  ++ "\n\n"
  ++ "Analyze for score variance, checklist consistency, feature implausibility, and statistical independence.\n\n"
  ++ "Return ONLY valid JSON (no markdown fences):\n"
  ++ "\x7b\n  \"consensus_score\": 0-100,\n  \"score_variance\": 0-100,\n"
  ++ "  \"collusion_risk\": \"low|medium|high\",\n  \"collusion_indicators\": [\"indicator1\"],\n"
  ++ "  \"independence_confirmed\": true,\n  \"reasoning\": \"brief explanation\",\n"
  ++ "  \"recommendation\": \"mint_token|hold_pending_review|reject_flag_escalate\",\n"
  ++ "  \"confidence\": \"high|medium|low\"\n\x7d"

/-- Operation `run_collusion_check`: renders the prompt (total even for an empty
submission list, since every subscript is guarded), obtains the client,
performs one call and parses the response. -/
def run_collusion_check (apiKey : Option String) (req : CollusionRequest)
    (content : Option String) : OpTrace JsonValue :=
  let _prompt := collusionPrompt req
  match get_client apiKey with
  | .error msg => ⟨0, .error (.valueError msg)⟩
  | .ok _ => ⟨1, structuredResponse collusionParseMsg content⟩

/-- The health-narrative prompt of `generate_health_narrative`: it
interpolates `village_name`, `population` and `cases_prevented` only —
`avg_score` appears nowhere in the f-string. -/
def narrativePrompt (req : HealthNarrativeRequest) : String :=
  "You are speaking to the community of " ++ req.village_name
  ++ ". Population: " ++ toString req.population
  ++ " people.\n\n"
  ++ "Over the past 90 days, your village maintained clean toilets. The improvement prevented an estimated "
  ++ toString req.cases_prevented
  ++ " cases of diarrheal illness.\n\n"
  ++ "Write ONE warm paragraph (4-6 sentences) explaining this impact. Speak as a respected elder at a village meeting. Use plain language. Never use these words: data, score, metric, percentage, coefficient, algorithm, system.\n\n"
  ++ "Focus on: protection of children, health of families, pride in community achievement, connection between clean toilets and healthy children."

/-- One outbound chat-completion call, as assembled by the dispatcher.
The sampling temperature is an opaque constant recorded by its source
lexeme (`"0.1"` or `"0.7"`). -/
structure ChatCall where
  model : String
  temperatureLexeme : String
  systemContent : String
  userContent : String
deriving DecidableEq

/-- The outbound call built by `generate_health_narrative`. -/
def narrativeCall (req : HealthNarrativeRequest) : ChatCall :=
  ⟨TEXT_MODEL, "0.7", SANSURE_SYSTEM_INSTRUCTION, narrativePrompt req⟩

/-- Python `x or ""` on an optional string: `None` and `""` are falsy. -/
def pyOrEmpty (content : Option String) : String :=
  match content with
  | none => ""
  | some s => if s = "" then "" else s

/-- Operation `generate_health_narrative`: renders the prompt, obtains the client,
performs one call, and returns `response.choices[0].message.content or ""`
— the raw text, never parsed, with empty output mapped to `""` instead of
an error. -/
def generate_health_narrative (apiKey : Option String)
    (req : HealthNarrativeRequest) (content : Option String) :
    OpTrace String :=
  let _prompt := narrativePrompt req
  match get_client apiKey with
  | .error msg => ⟨0, .error (.valueError msg)⟩
  | .ok _ => ⟨1, .ok (pyOrEmpty content)⟩

/-- Operation `generate_investor_signal`: same shape as the other structured modes.
(Its prompt interpolates a list of Python floats, whose `repr` is
float-formatting; no claim depends on that text, so the prompt is not
modelled character-by-character.) -/
def generate_investor_signal (apiKey : Option String)
    (req : InvestorSignalRequest) (content : Option String) :
    OpTrace JsonValue :=
  match get_client apiKey with
  | .error msg => ⟨0, .error (.valueError msg)⟩
  | .ok _ => ⟨1, structuredResponse investorParseMsg content⟩

/-- Body of the `/health` route handler. -/
inductive HealthResponse where
  | ok (model : String)
  | error (detail : String)
deriving DecidableEq

/-- Result of the `/health` handler: network-call count plus the returned body. -/
structure HealthTrace where
  networkCalls : Nat
  response : HealthResponse
deriving DecidableEq

/-- The `GET /health` handler of `main.py`: it only calls `get_client()` —
no chat-completion request — and catches the `ValueError` that is the sole
exception `get_client` can raise, so it is total: `{"status": "ok",
"model": VISION_MODEL}` on success, `{"status": "error", "detail":
str(e)}` otherwise. -/
def health (apiKey : Option String) : HealthTrace :=
  match get_client apiKey with
  | .ok _ => ⟨0, .ok VISION_MODEL⟩
  | .error msg => ⟨0, .error msg⟩

/-- The outbound call built by `run_collusion_check`. -/
def collusionCall (req : CollusionRequest) : ChatCall :=
  ⟨TEXT_MODEL, "0.1", SANSURE_SYSTEM_INSTRUCTION, collusionPrompt req⟩

/-- A concrete household submission, used to instantiate theorems. -/
def subExA : SubmissionModel :=
  ⟨"s1", "FAC-7", "household", 82, ⟨true, true, false, true⟩, ["door", "bucket"], []⟩

/-- A concrete peer submission, used to instantiate theorems. -/
def subExB : SubmissionModel :=
  ⟨"s2", "FAC-7", "peer", 78, ⟨true, false, false, true⟩, ["door"], ["no water container"]⟩

/-- A concrete auditor submission, used to instantiate theorems. -/
def subExC : SubmissionModel :=
  ⟨"s3", "FAC-7", "auditor", 85, ⟨true, true, true, true⟩, ["door", "tap"], []⟩

/-- A concrete fourth submission, used to instantiate theorems. -/
def subExD : SubmissionModel :=
  ⟨"s4", "FAC-7", "household", 10, ⟨false, false, false, false⟩, [], ["ignored"]⟩

theorem subFences_cons_ne (c : Char) (l : List Char) (h : c ≠ '\x60') :
    subFences (c :: l) = c :: subFences l := by
  generalize hx : subFences l = x
  unfold subFences
  split
  next heq => exact absurd heq (by simp)
  next r heq => injection heq with h1 _; exact absurd h1 h
  next r heq => injection heq with h1 _; exact absurd h1 h
  next r heq => injection heq with h1 _; exact absurd h1 h
  next c' rest heq =>
    injection heq with h1 h2
    rw [← h1, ← h2, hx]

theorem subFences_of_not_mem (l : List Char) (h : '\x60' ∉ l) : subFences l = l := by
  induction l with
  | nil => rfl
  | cons c rest ih =>
    have hc : c ≠ '\x60' := by
      intro hc; exact h (hc ▸ List.mem_cons_self c rest)
    rw [subFences_cons_ne c rest hc, ih (fun hm => h (List.mem_cons_of_mem c hm))]

theorem subFences_wrap_tail (l : List Char) (h : '\x60' ∉ l) :
    subFences (l ++ ['\n', '\x60', '\x60', '\x60']) = l ++ ['\n'] := by
  induction l with
  | nil => decide
  | cons c rest ih =>
    have hc : c ≠ '\x60' := by
      intro hc; exact h (hc ▸ List.mem_cons_self c rest)
    rw [List.cons_append, subFences_cons_ne c _ hc,
      ih (fun hm => h (List.mem_cons_of_mem c hm)), List.cons_append]

theorem pyStripList_append_nl (l : List Char) :
    pyStripList (l ++ ['\n']) = pyStripList l := by
  unfold pyStripList stripRightList
  rw [List.reverse_append]
  simp [List.dropWhile_cons, isPySpace]

theorem cleanText_of_not_mem (t : String) (h : '\x60' ∉ t.data) :
    cleanText t = ⟨pyStripList t.data⟩ := by
  unfold cleanText
  rw [subFences_of_not_mem t.data h]

theorem data_fence_wrap (t : String) :
    ("```json\n" ++ t ++ "\n```").data
      = '\x60' :: '\x60' :: '\x60' :: 'j' :: 's' :: 'o' :: 'n' :: '\n'
        :: (t.data ++ ['\n', '\x60', '\x60', '\x60']) := by
  rw [String.data_append, String.data_append]
  show ['\x60', '\x60', '\x60', 'j', 's', 'o', 'n', '\n'] ++ t.data
      ++ ['\n', '\x60', '\x60', '\x60'] = _
  simp

theorem cleanText_wrapped (t : String) (h : '\x60' ∉ t.data) :
    cleanText ("```json\n" ++ t ++ "\n```") = ⟨pyStripList t.data⟩ := by
  unfold cleanText
  rw [data_fence_wrap t]
  show String.mk (pyStripList (subFences
    ('\x60' :: '\x60' :: '\x60' :: 'j' :: 's' :: 'o' :: 'n' :: '\n'
      :: (t.data ++ ['\n', '\x60', '\x60', '\x60'])))) = _
  rw [show subFences ('\x60' :: '\x60' :: '\x60' :: 'j' :: 's' :: 'o' :: 'n' :: '\n'
      :: (t.data ++ ['\n', '\x60', '\x60', '\x60']))
    = subFences (t.data ++ ['\n', '\x60', '\x60', '\x60']) from rfl]
  rw [subFences_wrap_tail t.data h, pyStripList_append_nl]

/-- C2: code-fence stripping is transparent to JSON parsing — for every
text `t` containing no backtick character (in particular every such JSON
text), `safe_json_parse` applied to `"```json\n" ++ t ++ "\n```"` returns
exactly the same value as `safe_json_parse` applied to bare `t`. -/
theorem c2_fence_stripping_transparent (t : String) (h : '\x60' ∉ t.data) :
    safe_json_parse (some ("```json\n" ++ t ++ "\n```"))
      = safe_json_parse (some t) := by
  simp only [safe_json_parse]
  have hw : ("```json\n" ++ t ++ "\n```") ≠ "" := by
    intro he
    have hd := congrArg String.data he
    rw [data_fence_wrap t] at hd
    exact absurd hd (by simp [String.data])
  rw [if_neg hw, cleanText_wrapped t h]
  by_cases ht : t = ""
  · subst ht; rfl
  · rw [if_neg ht, cleanText_of_not_mem t h]

/-- C2 witness: the spec's own example — `"```json\n{"a":1}\n```"` parses
to the same mapping `{a: 1}` as bare `{"a":1}`. -/
theorem c2_fence_stripping_transparent_witness :
    safe_json_parse (some ("```json\n" ++ "\x7b\"a\":1\x7d" ++ "\n```"))
      = safe_json_parse (some "\x7b\"a\":1\x7d")
    ∧ safe_json_parse (some "\x7b\"a\":1\x7d")
      = .obj [("a", .num "1")] :=
  ⟨c2_fence_stripping_transparent "\x7b\"a\":1\x7d" (by decide), rfl⟩

/-- C1 counterexample: for `"```json\n{"a":1}\n```"` the raw response text
is not valid strict JSON, yet `safe_json_parse` does not signal a parse
failure: it returns the mapping `{a: 1}`, not `None` — the stripping step
happens before parsing, contradicting the claim read over the raw text. -/
theorem c1_parse_failure_iff_raw_cex :
    jsonParse "```json\n\x7b\"a\":1\x7d\n```" = none
    ∧ safe_json_parse (some "```json\n\x7b\"a\":1\x7d\n```")
        = .obj [("a", .num "1")]
    ∧ JsonValue.obj [("a", JsonValue.num "1")] ≠ JsonValue.null :=
  ⟨rfl, rfl, fun h => JsonValue.noConfusion h⟩

/-- C1 (amended): `safe_json_parse` signals a parse failure (returns
Python `None`) exactly when the text is empty, the code-fence-stripped
text is not valid strict JSON, or the stripped text parses to JSON `null`
(Python `None` is in-band, so a parsed `null` is indistinguishable from a
failure); whenever the stripped text parses to a value and the text is
nonempty, that parsed value is returned to the caller. -/
theorem c1_parse_failure_iff (t : String) :
    (safe_json_parse (some t) = .null ↔
      t = "" ∨ jsonParse (cleanText t) = none
        ∨ jsonParse (cleanText t) = some .null)
    ∧ (∀ v, t ≠ "" → jsonParse (cleanText t) = some v →
        safe_json_parse (some t) = v) := by
  constructor
  · constructor
    · intro hnull
      by_cases ht : t = ""
      · exact Or.inl ht
      · simp only [safe_json_parse, if_neg ht] at hnull
        cases hj : jsonParse (cleanText t) with
        | none => exact Or.inr (Or.inl rfl)
        | some v =>
          rw [hj] at hnull
          have hv : v = .null := hnull
          exact Or.inr (Or.inr (by rw [hv]))
    · intro hor
      rcases hor with ht | hj | hj
      · simp [safe_json_parse, ht]
      · by_cases ht : t = ""
        · simp [safe_json_parse, ht]
        · simp [safe_json_parse, if_neg ht, hj]
      · by_cases ht : t = ""
        · simp [safe_json_parse, ht]
        · simp [safe_json_parse, if_neg ht, hj]
  · intro v ht hj
    simp [safe_json_parse, if_neg ht, hj]

/-- C1 witness: a nonempty text whose cleaned form parses is returned as
the parsed mapping. -/
theorem c1_parse_failure_iff_witness :
    safe_json_parse (some " \x7b\"b\": 2\x7d ") = .obj [("b", .num "2")] :=
  (c1_parse_failure_iff " \x7b\"b\": 2\x7d ").2 (.obj [("b", .num "2")])
    (by decide) rfl

/-- C3 counterexample: a fenced (hence, as a raw string, invalid-JSON)
response makes the vision operation return the parsed mapping instead of
raising the dedicated parse error the claim requires for every invalid
raw text. -/
theorem c3_parse_error_on_invalid_cex :
    jsonParse "```json\n\x7b\"ok\":true\x7d\n```" = none
    ∧ (run_vision_analysis (some "key") ⟨"img", ⟨true, true, true, true⟩⟩
        (some "```json\n\x7b\"ok\":true\x7d\n```")).outcome
      = .ok (.obj [("ok", .bool true)]) :=
  ⟨rfl, rfl⟩

/-- C3 (amended): for every response text whose code-fence-stripped form
is not valid JSON, each of the three structured operations raises the
dedicated `ValueError` whose message carries the first 300 characters of
the original response text — a prefix of the text, of length at most 300 —
and no other exception escapes. -/
theorem c3_parse_error_snippet (k t : String)
    (hk1 : k ≠ "") (hk2 : k ≠ "PLACEHOLDER_API_KEY")
    (hbad : jsonParse (cleanText t) = none)
    (vreq : VisionRequest) (creq : CollusionRequest)
    (ireq : InvestorSignalRequest) :
    (run_vision_analysis (some k) vreq (some t)).outcome
      = .error (.valueError (visionParseMsg ++ pySlice t 300))
    ∧ (run_collusion_check (some k) creq (some t)).outcome
      = .error (.valueError (collusionParseMsg ++ pySlice t 300))
    ∧ (generate_investor_signal (some k) ireq (some t)).outcome
      = .error (.valueError (investorParseMsg ++ pySlice t 300))
    ∧ (pySlice t 300).length ≤ 300
    ∧ (pySlice t 300).data <+: t.data := by
  have hclient : get_client (some k) = .ok k := by
    simp [get_client, hk1, hk2]
  have hsafe : safe_json_parse (some t) = .null := by
    by_cases ht : t = ""
    · simp [safe_json_parse, ht]
    · simp [safe_json_parse, if_neg ht, hbad]
  have hresp : ∀ m : String, structuredResponse m (some t)
      = .error (.valueError (m ++ pySlice t 300)) := by
    intro m
    simp only [structuredResponse, hsafe]
    rfl
  refine ⟨?_, ?_, ?_, ?_, ?_⟩
  · simp [run_vision_analysis, hclient, hresp]
  · simp [run_collusion_check, hclient, hresp]
  · simp [generate_investor_signal, hclient, hresp]
  · show (⟨t.data.take 300⟩ : String).length ≤ 300
    have hl : (⟨t.data.take 300⟩ : String).length = (t.data.take 300).length := rfl
    rw [hl, List.length_take]
    exact inf_le_left
  · exact ⟨t.data.drop 300, List.take_append_drop 300 t.data⟩

/-- C3 witness: the spec's truncated example `{"a":1` raises the vision
parse error carrying the full (7-character) snippet. -/
theorem c3_parse_error_snippet_witness :
    (run_vision_analysis (some "k") ⟨"", ⟨true, true, true, true⟩⟩
        (some "\x7b\"a\":1")).outcome
      = .error (.valueError (visionParseMsg ++ pySlice "\x7b\"a\":1" 300))
    ∧ visionParseMsg ++ pySlice "\x7b\"a\":1" 300
      = "Could not parse vision response: \x7b\"a\":1" :=
  ⟨(c3_parse_error_snippet "k" "\x7b\"a\":1" (by decide) (by decide) rfl
      ⟨"", ⟨true, true, true, true⟩⟩ ⟨[]⟩ ⟨"v", [], 0.0, 0.0⟩).1,
   by decide⟩

/-- C4: whenever the credential is absent or equal to the placeholder,
each of the four non-health operations fails with the configuration
`ValueError` — surfaced verbatim — and performs zero network calls. -/
theorem c4_config_error_before_network (k : Option String)
    (hk : k = none ∨ k = some "PLACEHOLDER_API_KEY")
    (vreq : VisionRequest) (vresp : Option String)
    (creq : CollusionRequest) (cresp : Option String)
    (nreq : HealthNarrativeRequest) (nresp : Option String)
    (ireq : InvestorSignalRequest) (iresp : Option String) :
    run_vision_analysis k vreq vresp
      = ⟨0, .error (.valueError "GROQ_API_KEY not set in backend/.env")⟩
    ∧ run_collusion_check k creq cresp
      = ⟨0, .error (.valueError "GROQ_API_KEY not set in backend/.env")⟩
    ∧ generate_health_narrative k nreq nresp
      = ⟨0, .error (.valueError "GROQ_API_KEY not set in backend/.env")⟩
    ∧ generate_investor_signal k ireq iresp
      = ⟨0, .error (.valueError "GROQ_API_KEY not set in backend/.env")⟩ := by
  have hc : get_client k = .error "GROQ_API_KEY not set in backend/.env" := by
    rcases hk with h | h <;> subst h <;> rfl
  refine ⟨?_, ?_, ?_, ?_⟩
  · simp only [run_vision_analysis, hc]
  · simp only [run_collusion_check, hc]
  · simp only [generate_health_narrative, hc]
  · simp only [generate_investor_signal, hc]

/-- C4 witness: with no credential configured, all four operations return
the configuration error with zero network calls. -/
theorem c4_config_error_before_network_witness :
    run_vision_analysis none ⟨"", ⟨false, false, false, false⟩⟩ none
      = ⟨0, .error (.valueError "GROQ_API_KEY not set in backend/.env")⟩
    ∧ run_collusion_check none ⟨[]⟩ none
      = ⟨0, .error (.valueError "GROQ_API_KEY not set in backend/.env")⟩
    ∧ generate_health_narrative none ⟨"v", 0, 0.0, 0⟩ none
      = ⟨0, .error (.valueError "GROQ_API_KEY not set in backend/.env")⟩
    ∧ generate_investor_signal none ⟨"v", [], 0.0, 0.0⟩ none
      = ⟨0, .error (.valueError "GROQ_API_KEY not set in backend/.env")⟩ :=
  c4_config_error_before_network none (Or.inl rfl)
    ⟨"", ⟨false, false, false, false⟩⟩ none ⟨[]⟩ none
    ⟨"v", 0, 0.0, 0⟩ none ⟨"v", [], 0.0, 0.0⟩ none

/-- C5: `checkHealth` performs no network call and never raises; it
returns `{status: ok, model: VISION_MODEL}` exactly when a nonempty,
non-placeholder credential is configured, and the configuration error
detail whenever the credential is absent, empty or the placeholder. -/
theorem c5_health_status (k : Option String) :
    (health k).networkCalls = 0
    ∧ ((health k).response = .ok VISION_MODEL ↔
        ∃ s, k = some s ∧ s ≠ "" ∧ s ≠ "PLACEHOLDER_API_KEY")
    ∧ ((k = none ∨ k = some "" ∨ k = some "PLACEHOLDER_API_KEY") →
        (health k).response = .error "GROQ_API_KEY not set in backend/.env") := by
  refine ⟨?_, ⟨?_, ?_⟩, ?_⟩
  · cases hg : get_client k <;> simp [health, hg]
  · intro hok
    cases k with
    | none => simp [health, get_client] at hok
    | some s =>
      by_cases h1 : s = ""
      · subst h1; simp [health, get_client] at hok
      · by_cases h2 : s = "PLACEHOLDER_API_KEY"
        · subst h2; simp [health, get_client] at hok
        · exact ⟨s, rfl, h1, h2⟩
  · rintro ⟨s, rfl, h1, h2⟩
    simp [health, get_client, h1, h2]
  · rintro (rfl | rfl | rfl) <;> rfl

/-- C5 witness: a real credential reports `ok` with the model identifier;
the absent and placeholder credentials report the error detail. -/
theorem c5_health_status_witness :
    (health (some "real-key")).response = .ok VISION_MODEL
    ∧ (health none).response = .error "GROQ_API_KEY not set in backend/.env"
    ∧ (health (some "PLACEHOLDER_API_KEY")).response
      = .error "GROQ_API_KEY not set in backend/.env" :=
  ⟨(c5_health_status (some "real-key")).2.1.mpr
      ⟨"real-key", rfl, by decide, by decide⟩,
   (c5_health_status none).2.2 (Or.inl rfl),
   (c5_health_status (some "PLACEHOLDER_API_KEY")).2.2 (Or.inr (Or.inr rfl))⟩

/-- C7: with a configured credential, the narrative operation performs one
call and returns the raw response text unchanged — never JSON-parsed — and
returns `""` instead of raising when the model yields no text. -/
theorem c7_narrative_raw_text (k : String)
    (hk1 : k ≠ "") (hk2 : k ≠ "PLACEHOLDER_API_KEY")
    (req : HealthNarrativeRequest) (content : Option String) :
    generate_health_narrative (some k) req content
      = ⟨1, .ok (pyOrEmpty content)⟩
    ∧ (∀ s, content = some s →
        generate_health_narrative (some k) req content = ⟨1, .ok s⟩)
    ∧ (content = none →
        generate_health_narrative (some k) req content = ⟨1, .ok ""⟩) := by
  have hc : get_client (some k) = .ok k := by simp [get_client, hk1, hk2]
  have hmain : generate_health_narrative (some k) req content
      = ⟨1, .ok (pyOrEmpty content)⟩ := by
    simp only [generate_health_narrative, hc]
  refine ⟨hmain, ?_, ?_⟩
  · rintro s rfl
    have hs : pyOrEmpty (some s) = s := by
      by_cases h : s = ""
      · simp [pyOrEmpty, h]
      · simp [pyOrEmpty, h]
    rw [hmain, hs]
  · rintro rfl
    rw [hmain]
    rfl

/-- C7 witness: a concrete response text is returned verbatim, and a
missing response yields the empty string. -/
theorem c7_narrative_raw_text_witness :
    generate_health_narrative (some "k") ⟨"Asha", 120, 1.5, 3⟩
        (some "A warm word.") = ⟨1, .ok "A warm word."⟩
    ∧ generate_health_narrative (some "k") ⟨"Asha", 120, 1.5, 3⟩ none
      = ⟨1, .ok ""⟩ :=
  ⟨(c7_narrative_raw_text "k" (by decide) (by decide) ⟨"Asha", 120, 1.5, 3⟩
      (some "A warm word.")).2.1 "A warm word." rfl,
   (c7_narrative_raw_text "k" (by decide) (by decide) ⟨"Asha", 120, 1.5, 3⟩
      none).2.2 rfl⟩

/-- C6: for every collusion request with 0, 1 or 2 submissions, the
rendered prompt contains all three slot labels (household, peer, auditor),
each immediately followed by its slot text, and every unsupplied slot
renders as the fixed `"N/A"` placeholder — no slot is omitted. -/
theorem c6_collusion_prompt_slots (req : CollusionRequest)
    (h : req.submissions.length ≤ 2) :
    (∃ a b, collusionPrompt req
      = a ++ ("HOUSEHOLD SUBMISSION:\n" ++ collusionSlot req.submissions 0) ++ b)
    ∧ (∃ a b, collusionPrompt req
      = a ++ ("PEER SUBMISSION (non-adjacent):\n"
          ++ collusionSlot req.submissions 1) ++ b)
    ∧ (∃ a b, collusionPrompt req
      = a ++ ("AUDITOR SUBMISSION (separate ward):\n"
          ++ collusionSlot req.submissions 2) ++ b)
    ∧ (∀ i, req.submissions.length ≤ i → collusionSlot req.submissions i = "N/A")
    ∧ collusionSlot req.submissions 2 = "N/A" := by
  refine ⟨?_, ?_, ?_, ?_, ?_⟩
  · refine ⟨"You are SanSure\x27s collusion detection engine. Three independent parties submitted assessments for facility "
      ++ collusionFacilityId req.submissions ++ ":\n\n",
      "\n\n" ++ "PEER SUBMISSION (non-adjacent):\n" ++ collusionSlot req.submissions 1
      ++ "\n\n" ++ "AUDITOR SUBMISSION (separate ward):\n" ++ collusionSlot req.submissions 2
      ++ "\n\n"
      ++ "Analyze for score variance, checklist consistency, feature implausibility, and statistical independence.\n\n"
      ++ "Return ONLY valid JSON (no markdown fences):\n"
      ++ "\x7b\n  \"consensus_score\": 0-100,\n  \"score_variance\": 0-100,\n"
      ++ "  \"collusion_risk\": \"low|medium|high\",\n  \"collusion_indicators\": [\"indicator1\"],\n"
      ++ "  \"independence_confirmed\": true,\n  \"reasoning\": \"brief explanation\",\n"
      ++ "  \"recommendation\": \"mint_token|hold_pending_review|reject_flag_escalate\",\n"
      ++ "  \"confidence\": \"high|medium|low\"\n\x7d", ?_⟩
    simp only [collusionPrompt, String.append_assoc]
  · refine ⟨"You are SanSure\x27s collusion detection engine. Three independent parties submitted assessments for facility "
      ++ collusionFacilityId req.submissions ++ ":\n\n"
      ++ "HOUSEHOLD SUBMISSION:\n" ++ collusionSlot req.submissions 0 ++ "\n\n",
      "\n\n" ++ "AUDITOR SUBMISSION (separate ward):\n" ++ collusionSlot req.submissions 2
      ++ "\n\n"
      ++ "Analyze for score variance, checklist consistency, feature implausibility, and statistical independence.\n\n"
      ++ "Return ONLY valid JSON (no markdown fences):\n"
      ++ "\x7b\n  \"consensus_score\": 0-100,\n  \"score_variance\": 0-100,\n"
      ++ "  \"collusion_risk\": \"low|medium|high\",\n  \"collusion_indicators\": [\"indicator1\"],\n"
      ++ "  \"independence_confirmed\": true,\n  \"reasoning\": \"brief explanation\",\n"
      ++ "  \"recommendation\": \"mint_token|hold_pending_review|reject_flag_escalate\",\n"
      ++ "  \"confidence\": \"high|medium|low\"\n\x7d", ?_⟩
    simp only [collusionPrompt, String.append_assoc]
  · refine ⟨"You are SanSure\x27s collusion detection engine. Three independent parties submitted assessments for facility "
      ++ collusionFacilityId req.submissions ++ ":\n\n"
      ++ "HOUSEHOLD SUBMISSION:\n" ++ collusionSlot req.submissions 0 ++ "\n\n"
      ++ "PEER SUBMISSION (non-adjacent):\n" ++ collusionSlot req.submissions 1 ++ "\n\n",
      "\n\n"
      ++ "Analyze for score variance, checklist consistency, feature implausibility, and statistical independence.\n\n"
      ++ "Return ONLY valid JSON (no markdown fences):\n"
      ++ "\x7b\n  \"consensus_score\": 0-100,\n  \"score_variance\": 0-100,\n"
      ++ "  \"collusion_risk\": \"low|medium|high\",\n  \"collusion_indicators\": [\"indicator1\"],\n"
      ++ "  \"independence_confirmed\": true,\n  \"reasoning\": \"brief explanation\",\n"
      ++ "  \"recommendation\": \"mint_token|hold_pending_review|reject_flag_escalate\",\n"
      ++ "  \"confidence\": \"high|medium|low\"\n\x7d", ?_⟩
    simp only [collusionPrompt, String.append_assoc]
  · intro i hi
    unfold collusionSlot
    rw [dif_neg (by omega)]
  · unfold collusionSlot
    rw [dif_neg (by omega)]

/-- C6 witness: with a single submission, the peer and auditor slots both
render the placeholder, and the auditor label with its placeholder occurs
in the prompt. -/
theorem c6_collusion_prompt_slots_witness :
    collusionSlot [subExA] 1 = "N/A"
    ∧ collusionSlot [subExA] 2 = "N/A"
    ∧ (∃ a b, collusionPrompt ⟨[subExA]⟩
      = a ++ ("AUDITOR SUBMISSION (separate ward):\n" ++ collusionSlot [subExA] 2) ++ b) :=
  ⟨(c6_collusion_prompt_slots ⟨[subExA]⟩ (by decide)).2.2.2.1 1 (by decide),
   (c6_collusion_prompt_slots ⟨[subExA]⟩ (by decide)).2.2.2.1 2 (by decide),
   (c6_collusion_prompt_slots ⟨[subExA]⟩ (by decide)).2.2.1⟩

set_option maxRecDepth 8000 in
/-- C8: the empty collusion request does not fail on list indexing: the
facility identifier renders as `"UNKNOWN"`, all three slots render as
`"N/A"`, and the prompt is fully constructed. -/
theorem c8_collusion_empty_safe :
    collusionFacilityId [] = "UNKNOWN"
    ∧ collusionSlot ([] : List SubmissionModel) 0 = "N/A"
    ∧ collusionSlot ([] : List SubmissionModel) 1 = "N/A"
    ∧ collusionSlot ([] : List SubmissionModel) 2 = "N/A"
    ∧ collusionPrompt ⟨[]⟩
      = "You are SanSure\x27s collusion detection engine. Three independent parties submitted assessments for facility UNKNOWN:\n\nHOUSEHOLD SUBMISSION:\nN/A\n\nPEER SUBMISSION (non-adjacent):\nN/A\n\nAUDITOR SUBMISSION (separate ward):\nN/A\n\nAnalyze for score variance, checklist consistency, feature implausibility, and statistical independence.\n\nReturn ONLY valid JSON (no markdown fences):\n\x7b\n  \"consensus_score\": 0-100,\n  \"score_variance\": 0-100,\n  \"collusion_risk\": \"low|medium|high\",\n  \"collusion_indicators\": [\"indicator1\"],\n  \"independence_confirmed\": true,\n  \"reasoning\": \"brief explanation\",\n  \"recommendation\": \"mint_token|hold_pending_review|reject_flag_escalate\",\n  \"confidence\": \"high|medium|low\"\n\x7d" :=
  ⟨rfl, rfl, rfl, rfl, by decide⟩

/-- C9: the health-narrative prompt, and hence the outbound call, is
independent of `avg_score`: two requests that differ only in `avg_score`
yield character-for-character identical prompts and identical calls. -/
theorem c9_narrative_ignores_avg_score (v : String) (p : Int)
    (a₁ a₂ : Float) (c : Int) :
    narrativePrompt ⟨v, p, a₁, c⟩ = narrativePrompt ⟨v, p, a₂, c⟩
    ∧ narrativeCall ⟨v, p, a₁, c⟩ = narrativeCall ⟨v, p, a₂, c⟩ :=
  ⟨rfl, rfl⟩

/-- C10: submissions beyond the third never influence the collusion
operation: the request type accepts any number of submissions, and two
requests agreeing on their first three submissions render identical
prompts and identical outbound calls. -/
theorem c10_collusion_first_three (subs₁ subs₂ : List SubmissionModel)
    (h : subs₁.take 3 = subs₂.take 3) :
    collusionPrompt ⟨subs₁⟩ = collusionPrompt ⟨subs₂⟩
    ∧ collusionCall ⟨subs₁⟩ = collusionCall ⟨subs₂⟩ := by
  have hfid : collusionFacilityId subs₁ = collusionFacilityId subs₂ := by
    cases subs₁ with
    | nil =>
      cases subs₂ with
      | nil => rfl
      | cons b bs => simp [List.take] at h
    | cons a as =>
      cases subs₂ with
      | nil => simp [List.take] at h
      | cons b bs =>
        simp [List.take] at h
        simp [collusionFacilityId, h.1]
  have hlen : ∀ i, i < 3 → ((i < subs₁.length) ↔ (i < subs₂.length)) := by
    intro i hi
    have hl := congrArg List.length h
    simp [List.length_take] at hl
    omega
  have hslot : ∀ i, i < 3 → collusionSlot subs₁ i = collusionSlot subs₂ i := by
    intro i hi
    have hget : subs₁.get? i = subs₂.get? i := by
      have h1 : (subs₁.take 3).get? i = (subs₂.take 3).get? i := by rw [h]
      rwa [List.get?_take hi, List.get?_take hi] at h1
    unfold collusionSlot
    by_cases h₁ : i < subs₁.length
    · have h₂ : i < subs₂.length := (hlen i hi).mp h₁
      rw [dif_pos h₁, dif_pos h₂]
      rw [List.get?_eq_get h₁, List.get?_eq_get h₂] at hget
      exact congrArg fmtSubmission (Option.some.inj hget)
    · rw [dif_neg h₁, dif_neg (fun hh => h₁ ((hlen i hi).mpr hh))]
  have hp : collusionPrompt ⟨subs₁⟩ = collusionPrompt ⟨subs₂⟩ := by
    simp only [collusionPrompt]
    rw [hfid, hslot 0 (by omega), hslot 1 (by omega), hslot 2 (by omega)]
  exact ⟨hp, by simp only [collusionCall, hp]⟩

/-- C10 witness: a four-submission request is accepted and renders exactly
the prompt and call of the request made of its first three submissions. -/
theorem c10_collusion_first_three_witness :
    collusionPrompt ⟨[subExA, subExB, subExC, subExD]⟩
      = collusionPrompt ⟨[subExA, subExB, subExC]⟩
    ∧ collusionCall ⟨[subExA, subExB, subExC, subExD]⟩
      = collusionCall ⟨[subExA, subExB, subExC]⟩ :=
  c10_collusion_first_three [subExA, subExB, subExC, subExD]
    [subExA, subExB, subExC] rfl
